import Mathlib

/-!
Shallow embedding of the `econf` option registry and resolution engine
(`src/econf/__init__.py`, class `Config`), with the parts of its external
collaborators (`optparse`, `configparser`) that the engine's behaviour
depends on.

Modelling conventions:
* Python strings are `String`; the `UNSET = str(object())` sentinel is kept
  apart from ordinary stored strings by the constructor `FileVal.unset`,
  which captures the source's identity test `value is not UNSET` (the
  sentinel string is only ever that exact object: `str(default)` with
  `default = UNSET` returns the identical object, and `ConfigParser.get`'s
  interpolation returns the stored string unchanged for `%`-free values).
* The command-line tokenizer is out of scope (per the spec): the parsed
  `optparse.Values` object is modelled as the association list of the flag
  destinations that were actually provided, mapped to their string values;
  a destination that is absent or was not provided reads as `none`, exactly
  what `getattr(self._options, cmd_option, None)` yields.
* `optparse.OptionParser` state is modelled by the list of registered long
  option strings; `add_option` with an already-registered string raises
  `OptionConflictError` (default `conflict_handler="error"`), modelled as
  `PyErr.optionConflict`.
* `configparser.ConfigParser` state is the `DEFAULT` store (`_defaults`)
  plus the named sections (`_sections`); option keys are lowercased by
  `optionxform`; `get(section, option)` falls back from the section's own
  dict to the `DEFAULT` store, raising `NoSectionError` / `NoOptionError`
  otherwise.
* The filesystem is an association list from path to parsed INI contents;
  `os.path.exists` is membership in it.
-/

/-- `ConfigParser.DEFAULTSECT`. -/
def DEFAULTSECT : String := "DEFAULT"

/-- Python `section or ConfigParser.DEFAULTSECT`: `None` and the empty
string are falsy, any other string stands. -/
def orDefaultSect : Option String → String
  | none => DEFAULTSECT
  | some s => if s = "" then DEFAULTSECT else s

/-- Python values that flow through the engine: strings (command-line and
file values), integers and booleans (converter outputs, caller defaults). -/
inductive Val : Type
  | vStr (s : String)
  | vInt (n : Int)
  | vBool (b : Bool)
deriving DecidableEq, Repr

/-- Python `str(v)` on the values of `Val`. -/
def pyStr : Val → String
  | .vStr s => s
  | .vInt n => toString n
  | .vBool b => if b then "True" else "False"

/-- Python truthiness of a `Val` (`assert self.get(...)` uses it). -/
def truthy : Val → Bool
  | .vStr s => s ≠ ""
  | .vInt n => n ≠ 0
  | .vBool b => b

/-- The exceptions the engine can surface, with their message payloads. -/
inductive PyErr : Type
  | undefinedOption (msg : String)
  | unsetOption (msg : String)
  | valueError (msg : String)
  | optionConflict (flag : String)
  | assertionError (msg : String)
deriving DecidableEq, Repr

/-- Equality of fallible results is decidable (used to evaluate concrete
scenarios). -/
instance {m a : Type} [DecidableEq m] [DecidableEq a] : DecidableEq (Except m a) := fun x y =>
  match x, y with
  | .ok u, .ok v => if h : u = v then .isTrue (by rw [h]) else .isFalse (by simp [h])
  | .error u, .error v => if h : u = v then .isTrue (by rw [h]) else .isFalse (by simp [h])
  | .ok _, .error _ => .isFalse (by simp)
  | .error _, .ok _ => .isFalse (by simp)

/-- `configparser` lookup failures (`NoSectionError`, `NoOptionError`). -/
inductive CPErr : Type
  | noSection
  | noOption
deriving DecidableEq, Repr

/-- A value stored in the config-parser store: either an ordinary string or
the identical `UNSET` sentinel object seeded by `define(default=UNSET)`. -/
inductive FileVal : Type
  | unset
  | str (s : String)
deriving DecidableEq, Repr

/-- The `default=` argument of `define`: the `UNSET` sentinel or a value
(the source stores `str(default)`). -/
inductive PyDefault : Type
  | UNSET
  | val (v : Val)
deriving DecidableEq, Repr

/-- What `self._config_parser.set(section, option, str(default))` stores:
`str(UNSET)` is the sentinel itself, `str(v)` is an ordinary string. -/
def storedOf : PyDefault → FileVal
  | .UNSET => .unset
  | .val v => .str (pyStr v)

/-- The converters recorded in `self._converters`: the three option types the
source ships (`str` the default, `int`, and `BoolOpt`'s `en_bool`). -/
inductive Conv : Type
  | cstr
  | cint
  | cbool
deriving DecidableEq, Repr

/-- The accepted part of Python `int(s)` for base 10: optional surrounding
whitespace, optional sign, then decimal digits; `none` on anything else.
(Accepted spellings not exercised here, such as digit-group underscores,
are omitted.) -/
def pySpace (c : Char) : Bool :=
  c = ' ' ∨ c = '\t' ∨ c = '\n' ∨ c = '\r' ∨ c = '\x0b' ∨ c = '\x0c'

/-- Python `str.strip()` of ASCII whitespace (what `int()` tolerates). -/
def pyStrip (s : String) : String :=
  ⟨((s.data.dropWhile pySpace).reverse.dropWhile pySpace).reverse⟩

def pyParseIntCore (s : String) : Option Int :=
  let t := pyStrip s
  let signed : Bool × List Char :=
    match t.data with
    | '-' :: rest => (true, rest)
    | '+' :: rest => (false, rest)
    | l => (false, l)
  if signed.2.isEmpty then none
  else if signed.2.all Char.isDigit then
    let n : Nat := signed.2.foldl (fun acc c => acc * 10 + (c.toNat - 48)) 0
    some (if signed.1 then -(n : Int) else (n : Int))
  else none

/-- Python `int(s)` for base 10, raising `ValueError` on malformed input. -/
def pyParseInt (s : String) : Except PyErr Val :=
  match pyParseIntCore s with
  | some n => .ok (.vInt n)
  | none => .error (.valueError ("invalid literal for int() with base 10: " ++ s))

/-- Apply a recorded converter to a raw value, as `convert(val)` does:
`str` stringifies, `int` parses strings / passes numbers, and `en_bool`
matches exactly the four truthy tokens on strings and falls back to native
truthiness on non-strings. -/
def applyConv : Conv → Val → Except PyErr Val
  | .cstr, v => .ok (.vStr (pyStr v))
  | .cint, .vStr s => pyParseInt s
  | .cint, .vInt n => .ok (.vInt n)
  | .cint, .vBool b => .ok (.vInt (if b then 1 else 0))
  | .cbool, .vStr s => .ok (.vBool (s = "True" ∨ s = "true" ∨ s = "T" ∨ s = "t"))
  | .cbool, .vInt n => .ok (.vBool (n ≠ 0))
  | .cbool, .vBool b => .ok (.vBool b)

/-- Association-list lookup (Python dict read). -/
def lk {α β : Type} [DecidableEq α] : List (α × β) → α → Option β
  | [], _ => none
  | (k, v) :: rest, key => if key = k then some v else lk rest key

/-- Association-list write (Python dict write: replace in place or append). -/
def updAssoc {α β : Type} [DecidableEq α] : List (α × β) → α → β → List (α × β)
  | [], key, val => [(key, val)]
  | (k, v) :: rest, key, val =>
      if k = key then (k, val) :: rest else (k, v) :: updAssoc rest key val

/-- The mutable state of a `Config` instance. -/
structure Config : Type where
  /-- long option strings registered with `self._opt_parser` -/
  flags : List String
  /-- `self._options`: `none` before `parse_cmdline`, afterwards the provided
  (destination, value) pairs -/
  options? : Option (List (String × String))
  /-- `self._config_parser._defaults` (the `DEFAULT` store) -/
  defaults : List (String × FileVal)
  /-- `self._config_parser._sections` (never contains `DEFAULT`) -/
  sections : List (String × List (String × FileVal))
  /-- `self._required` -/
  required : List (String × String)
  /-- `self._converters` -/
  converters : List ((String × String) × Conv)
deriving DecidableEq, Repr

/-- A fresh `Config()`: the `--conf` (short `-f`) and `--version` (short
`-v`) options pre-registered, nothing parsed, empty stores. -/
def confInit : Config :=
  { flags := ["-f", "--conf", "-v", "--version"]
    options? := none
    defaults := []
    sections := []
    required := []
    converters := [] }

/-- Python `str.upper()` (ASCII case mapping, per-character). -/
def pyUpper (s : String) : String := ⟨s.data.map Char.toUpper⟩

/-- Python `str.lower()` (ASCII case mapping, per-character). -/
def pyLower (s : String) : String := ⟨s.data.map Char.toLower⟩

/-- Python `cmd_option.replace('_', '-')` for the one-character pattern:
replace every underscore with a dash. -/
def dashed (s : String) : String := ⟨s.data.map fun c => if c = '_' then '-' else c⟩

/-- `Config._cmd_option`: flag-destination derivation. -/
def cmdOption (sect option : String) : String :=
  if pyUpper sect ≠ DEFAULTSECT then pyLower sect ++ "_" ++ option else option

/-- `self._options and getattr(self._options, cmd_option, None)`: `none`
before the command line is parsed, else the provided value if any. -/
def cmdLookup (c : Config) (sect option : String) : Option String :=
  match c.options? with
  | none => none
  | some vals => lk vals (cmdOption sect option)

/-- `ConfigParser.get(section, option)`: lowercase the option key
(`optionxform`), look in the section's own dict, fall back to the `DEFAULT`
store, signalling `NoSectionError` / `NoOptionError` as the source does. -/
def cpGet (c : Config) (sect option : String) : Except CPErr FileVal :=
  let key := pyLower option
  if sect = DEFAULTSECT then
    match lk c.defaults key with
    | some v => .ok v
    | none => .error .noOption
  else
    match lk c.sections sect with
    | none => .error .noSection
    | some sd =>
      match lk sd key with
      | some v => .ok v
      | none =>
        match lk c.defaults key with
        | some v => .ok v
        | none => .error .noOption

/-- `try: add_section(section) except (DuplicateSectionError, ValueError):
pass` — create the section unless it already exists or is `DEFAULT`. -/
def ensureSection (c : Config) (sect : String) : Config :=
  if sect = DEFAULTSECT then c
  else
    match lk c.sections sect with
    | some _ => c
    | none => { c with sections := c.sections ++ [(sect, [])] }

/-- Write into one named section's dict (callers have ensured the section
exists; on a missing section the source's `set` would raise
`NoSectionError`, never reached here). -/
def updSection :
    List (String × List (String × FileVal)) → String → String → FileVal →
      List (String × List (String × FileVal))
  | [], _, _, _ => []
  | (s, d) :: rest, sect, key, v =>
      if s = sect then (s, updAssoc d key v) :: rest
      else (s, d) :: updSection rest sect key v

/-- `ConfigParser.set(section, option, value)`: lowercase the key, route
`DEFAULT` to the default store. -/
def cpSet (c : Config) (sect option : String) (v : FileVal) : Config :=
  let key := pyLower option
  if sect = DEFAULTSECT then { c with defaults := updAssoc c.defaults key v }
  else { c with sections := updSection c.sections sect key v }

/-- Parsed INI file contents: sections (possibly including `DEFAULT`) with
their key/value pairs. -/
def FileContents : Type := List (String × List (String × String))

/-- `ConfigParser.read`: merge the file's sections and options into the
store, creating sections and overwriting existing keys. -/
def readConf (c : Config) (fc : FileContents) : Config :=
  fc.foldl
    (fun acc sect =>
      (sect.2.foldl (fun a kv => cpSet a sect.1 kv.1 (.str kv.2))
        (ensureSection acc sect.1)))
    c

/-- Tiers 2–4 of `Config._get`: the config-parser lookup, the `UNSET`
identity test, the call-time default, and the two failure modes. -/
def fileTiers (c : Config) (option sect : String) (default? : Option Val) :
    Except PyErr Val :=
  match cpGet c sect option with
  | .ok (.str s) => .ok (.vStr s)
  | .ok .unset =>
    match default? with
    | some d => .ok d
    | none => .error (.unsetOption ("Section: " ++ sect ++ ", option: " ++ option))
  | .error _ => .error (.undefinedOption ("Section: " ++ sect ++ ", option: " ++ option))

/-- `Config._get`: command-line tier first (`value is not None`), then the
file tiers. -/
def pyRawGet (c : Config) (option : String) (section? : Option String)
    (default? : Option Val) : Except PyErr Val :=
  let sec := orDefaultSect section?
  match cmdLookup c sec option with
  | some v => .ok (.vStr v)
  | none => fileTiers c option sec default?

/-- `Config.get`: look up the recorded converter (defaulting to `str`) and
apply it to whatever `_get` returned. -/
def pyGet (c : Config) (option : String) (section? : Option String)
    (default? : Option Val) : Except PyErr Val :=
  let sec := orDefaultSect section?
  let conv := (lk c.converters (sec, option)).getD Conv.cstr
  match pyRawGet c option section? default? with
  | .ok v => applyConv conv v
  | .error e => .error e

/-- `Config.define`: optionally register the derived flag (conflicting
registration raises before any other mutation), ensure the section, record
the converter, seed the store with `str(default)`, and append to the
required list. -/
def defineC (c : Config) (option : String) (section? : Option String)
    (type : Conv) (default : PyDefault) (cmdline required : Bool) :
    Except PyErr Config :=
  let sec := orDefaultSect section?
  let step : Except PyErr Config :=
    if cmdline then
      let flag := "--" ++ dashed (cmdOption sec option)
      if flag ∈ c.flags then .error (.optionConflict flag)
      else .ok { c with flags := flag :: c.flags }
    else .ok c
  match step with
  | .error e => .error e
  | .ok c1 =>
    let c2 := ensureSection c1 sec
    let c3 := { c2 with converters := updAssoc c2.converters (sec, option) type }
    let c4 := cpSet c3 sec option (storedOf default)
    .ok (if required then { c4 with required := c4.required ++ [(sec, option)] } else c4)

/-- Convenience for building concrete reachable states: the result of a
`define` call known to succeed (the input state on the unreachable error). -/
def defineOk (c : Config) (option : String) (section? : Option String)
    (type : Conv) (default : PyDefault) (cmdline required : Bool) : Config :=
  match defineC c option section? type default cmdline required with
  | .ok c' => c'
  | .error _ => c

/-- `config_file = (self._options and self._options.conf) or default_conf`:
the command-line `--conf` value when parsed and non-empty, else the
`default_conf` parameter. -/
def chooseConfigFile (options? : Option (List (String × String)))
    (default_conf : Option String) : Option String :=
  let cli : Option String :=
    match options? with
    | none => none
    | some vals => lk vals "conf"
  match cli with
  | some s => if s = "" then default_conf else some s
  | none => default_conf

/-- The `check_required` loop of `Config.__call__`:
`assert self.get(opt, section=section)` for each required pair, in order;
a `get` failure propagates, a falsy value trips the assertion. -/
def checkList (c : Config) : List (String × String) → Except PyErr Unit
  | [] => .ok ()
  | (sec, opt) :: rest =>
    match pyGet c opt (some sec) none with
    | .error e => .error e
    | .ok v =>
      if truthy v then checkList c rest
      else .error (.assertionError ("[" ++ sec ++ "]" ++ opt ++ " is not config"))

/-- The required-option audit over `self._required`. -/
def checkRequired (c : Config) : Except PyErr Unit := checkList c c.required

/-- `Config.__call__(default_conf, check_required, argv)`: parse the command
line, choose the config file, load it when it exists and the chosen path is
truthy (else warn and continue), then optionally run the required check. -/
def callConfig (c : Config) (fs : List (String × FileContents))
    (default_conf : Option String) (check_required : Bool)
    (parsed : List (String × String)) : Except PyErr Config :=
  let c1 := { c with options? := some parsed }
  let c2 :=
    match chooseConfigFile c1.options? default_conf with
    | none => c1
    | some path =>
      if path = "" then c1
      else
        match lk fs path with
        | none => c1
        | some fc => readConf c1 fc
  if check_required then
    match checkRequired c2 with
    | .ok _ => .ok c2
    | .error e => .error e
  else .ok c2

/-- Convenience for building concrete reachable states: the result of a
resolution call known to succeed. -/
def callOk (c : Config) (fs : List (String × FileContents))
    (default_conf : Option String) (check_required : Bool)
    (parsed : List (String × String)) : Config :=
  match callConfig c fs default_conf check_required parsed with
  | .ok c' => c'
  | .error _ => c

/-- The (section argument, option) pairs `Config.dump` iterates: the
`DEFAULT` store's keys via `self.options()` (section omitted), then each
named section's own keys. -/
def dumpPairs (c : Config) : List (Option String × String) :=
  (c.defaults.map fun p => ((none : Option String), p.1)) ++
    ((c.sections.map fun s => s.2.map fun p => (some s.1, p.1)).flatten)

/-- The sequence of `self.get` calls `dump` performs; the first failure
propagates out of `dump` exactly as the uncaught exception does. -/
def dumpGo (c : Config) : List (Option String × String) → Except PyErr (List Val)
  | [] => .ok []
  | (sec?, name) :: rest =>
    match pyGet c name sec? none with
    | .error e => .error e
    | .ok v =>
      match dumpGo c rest with
      | .error e => .error e
      | .ok vs => .ok (v :: vs)

/-- `Config.dump` (the logging around the `get` calls never raises and is
omitted). -/
def dump (c : Config) : Except PyErr (List Val) := dumpGo c (dumpPairs c)

/-- State-passing form of the command-line read: `getattr` mutates nothing. -/
def cmdLookupS (c : Config) (sect option : String) : Option String × Config :=
  (cmdLookup c sect option, c)

/-- State-passing form of the config-parser read: `ConfigParser.get` mutates
nothing. -/
def cpGetS (c : Config) (sect option : String) : Except CPErr FileVal × Config :=
  (cpGet c sect option, c)

/-- State-passing form of `Config._get`, threading the registry state
through each read the method body performs. -/
def pyRawGetS (c : Config) (option : String) (section? : Option String)
    (default? : Option Val) : Except PyErr Val × Config :=
  let sec := orDefaultSect section?
  let r1 := cmdLookupS c sec option
  match r1.1 with
  | some v => (.ok (.vStr v), r1.2)
  | none =>
    let r2 := cpGetS r1.2 sec option
    match r2.1 with
    | .ok (.str s) => (.ok (.vStr s), r2.2)
    | .ok .unset =>
      match default? with
      | some d => (.ok d, r2.2)
      | none => (.error (.unsetOption ("Section: " ++ sec ++ ", option: " ++ option)), r2.2)
    | .error _ =>
      (.error (.undefinedOption ("Section: " ++ sec ++ ", option: " ++ option)), r2.2)

/-- State-passing form of `Config.get`: a converter-dict read, the `_get`
call, and the conversion of its result. -/
def pyGetS (c : Config) (option : String) (section? : Option String)
    (default? : Option Val) : Except PyErr Val × Config :=
  let sec := orDefaultSect section?
  let conv := (lk c.converters (sec, option)).getD Conv.cstr
  let r := pyRawGetS c option section? default?
  match r.1 with
  | .ok v => (applyConv conv v, r.2)
  | .error e => (.error e, r.2)

/-! ### Concrete registry states used as test inputs

Each is reached from a fresh `Config()` through `define` and `__call__`
only, so every scenario below is a run of the program. -/

/-- The filesystem of the precedence scenarios: one config file assigning
`host = filehost` in the default section. -/
def fsHost : List (String × FileContents) :=
  [("app.conf", [("DEFAULT", [("host", "filehost")])])]

/-- `define('host', cmdline=True)`, then resolution with config file
`app.conf` and command line `--host=` (an empty-string flag value). -/
def cHostEmptyCli : Config :=
  callOk (defineOk confInit "host" none .cstr .UNSET true false)
    fsHost (some "app.conf") false [("host", "")]

/-- Same declaration and file, command line `--host=10.0.0.1`. -/
def cHostCli : Config :=
  callOk (defineOk confInit "host" none .cstr .UNSET true false)
    fsHost (some "app.conf") false [("host", "10.0.0.1")]

/-- The filesystem of the file-choice scenario: two existing files whose
`[s] k` values tell them apart. -/
def fsTwo : List (String × FileContents) :=
  [("cli.conf", [("s", [("k", "cli")])]), ("param.conf", [("s", [("k", "param")])])]

/-- Resolution with `default_conf="param.conf"` while the command line also
carries `--conf cli.conf`. -/
def cTwoConf : Config :=
  callOk confInit fsTwo (some "param.conf") false [("conf", "cli.conf")]

/-- `define('port', type=int)` with no default, nothing resolved. -/
def cIntPort : Config := defineOk confInit "port" none .cint .UNSET false false

/-- `define('secret')` with no default, nothing resolved. -/
def cSecret : Config := defineOk confInit "secret" none .cstr .UNSET false false

/-- `define('host', default='0.0.0.0')`, nothing resolved. -/
def cHostDefault : Config :=
  defineOk confInit "host" none .cstr (.val (.vStr "0.0.0.0")) false false

/-- `define('host', default='0.0.0.0')` then `define('hosts', section='zk')`:
the pair `('zk', 'host')` is never declared and never read from a file. -/
def cZk : Config :=
  defineOk (defineOk confInit "host" none .cstr (.val (.vStr "0.0.0.0")) false false)
    "hosts" (some "zk") .cstr .UNSET false false

/-- `define('token')` with no default. -/
def cTokUnset : Config := defineOk confInit "token" none .cstr .UNSET false false

/-- `define('token', default='')`: empty-string default, not the sentinel. -/
def cTokEmpty : Config :=
  defineOk confInit "token" none .cstr (.val (.vStr "")) false false

/-- `define('retries', section='db', cmdline=True)` once. -/
def cDbRetries : Config := defineOk confInit "retries" (some "db") .cstr .UNSET true false

/-- `define('port', type=int, cmdline=True, required=True)` with no default. -/
def cReqPort : Config := defineOk confInit "port" none .cint .UNSET true true

/-- `cReqPort` resolved with command line `--port 8080` and no config file. -/
def cReqPortSet : Config := callOk cReqPort [] none false [("port", "8080")]

/-! ### Helper lemmas about the dictionary model -/

theorem lk_updAssoc_self {α β : Type} [DecidableEq α] (l : List (α × β)) (k : α) (v : β) :
    lk (updAssoc l k v) k = some v := by
  induction l with
  | nil => simp [updAssoc, lk]
  | cons hd tl ih =>
    obtain ⟨a, b⟩ := hd
    by_cases h : a = k
    · subst h
      simp [updAssoc, lk]
    · simp only [updAssoc, if_neg h, lk, if_neg (fun hh : k = a => h hh.symm)]
      exact ih

theorem lk_append_self {α β : Type} [DecidableEq α] (l : List (α × β)) (k : α) (v : β)
    (h : lk l k = none) : lk (l ++ [(k, v)]) k = some v := by
  induction l with
  | nil => simp [lk]
  | cons hd tl ih =>
    obtain ⟨a, b⟩ := hd
    by_cases hk : k = a
    · simp [lk, hk] at h
    · simp [lk, hk] at h ⊢
      exact ih h

theorem updSection_lk_self (l : List (String × List (String × FileVal)))
    (sect key : String) (v : FileVal) (d : List (String × FileVal))
    (h : lk l sect = some d) :
    lk (updSection l sect key v) sect = some (updAssoc d key v) := by
  induction l with
  | nil => simp [lk] at h
  | cons hd tl ih =>
    obtain ⟨s, dd⟩ := hd
    by_cases hs : s = sect
    · subst hs
      simp [lk] at h
      subst h
      simp [updSection, lk]
    · rw [lk, if_neg (fun hh : sect = s => hs hh.symm)] at h
      simp only [updSection, if_neg hs, lk, if_neg (fun hh : sect = s => hs hh.symm)]
      exact ih h

/-! ### Field-preservation and store lemmas -/

theorem ensureSection_defaults (c : Config) (sect : String) :
    (ensureSection c sect).defaults = c.defaults := by
  unfold ensureSection
  split
  · rfl
  · split <;> rfl

theorem ensureSection_converters (c : Config) (sect : String) :
    (ensureSection c sect).converters = c.converters := by
  unfold ensureSection
  split
  · rfl
  · split <;> rfl

theorem ensureSection_flags (c : Config) (sect : String) :
    (ensureSection c sect).flags = c.flags := by
  unfold ensureSection
  split
  · rfl
  · split <;> rfl

theorem ensureSection_options (c : Config) (sect : String) :
    (ensureSection c sect).options? = c.options? := by
  unfold ensureSection
  split
  · rfl
  · split <;> rfl

theorem cpSet_converters (c : Config) (sect opt : String) (v : FileVal) :
    (cpSet c sect opt v).converters = c.converters := by
  unfold cpSet
  split <;> rfl

theorem cpSet_flags (c : Config) (sect opt : String) (v : FileVal) :
    (cpSet c sect opt v).flags = c.flags := by
  unfold cpSet
  split <;> rfl

theorem cpSet_options (c : Config) (sect opt : String) (v : FileVal) :
    (cpSet c sect opt v).options? = c.options? := by
  unfold cpSet
  split <;> rfl

theorem cpGet_eq_of_fields (c c' : Config) (hd : c.defaults = c'.defaults)
    (hs : c.sections = c'.sections) (sect opt : String) :
    cpGet c sect opt = cpGet c' sect opt := by
  unfold cpGet
  rw [hd, hs]

theorem ensureSection_isSome (c : Config) (sect : String) (h : sect ≠ DEFAULTSECT) :
    (lk (ensureSection c sect).sections sect).isSome := by
  unfold ensureSection
  rw [if_neg h]
  cases hl : lk c.sections sect with
  | some d => simp [hl]
  | none => simp [lk_append_self _ _ _ hl]

theorem cpGet_cpSet_self (c : Config) (sect opt : String) (v : FileVal)
    (hs : sect ≠ DEFAULTSECT → (lk c.sections sect).isSome) :
    cpGet (cpSet c sect opt v) sect opt = .ok v := by
  unfold cpGet cpSet
  by_cases h : sect = DEFAULTSECT
  · simp [h, lk_updAssoc_self]
  · obtain ⟨d, hd⟩ := Option.isSome_iff_exists.mp (hs h)
    simp only [if_neg h]
    rw [updSection_lk_self _ _ _ _ _ hd]
    simp [lk_updAssoc_self]

/-! ### Converter result lemmas -/

theorem applyConv_cases (conv : Conv) (v : Val) :
    (∃ w, applyConv conv v = .ok w) ∨ (∃ m, applyConv conv v = .error (.valueError m)) := by
  cases conv <;> cases v <;> simp [applyConv, pyParseInt]
  cases pyParseIntCore _ <;> simp

/-! ### The shape of a successful `define` -/

theorem defineC_ok_cases (c : Config) (opt : String) (section? : Option String)
    (conv : Conv) (d : PyDefault) (cm req : Bool) (c' : Config)
    (h : defineC c opt section? conv d cm req = .ok c') :
    ∃ c1 : Config,
      c1.defaults = c.defaults ∧ c1.sections = c.sections ∧
      c1.converters = c.converters ∧ c1.options? = c.options? ∧
      (cm = true →
        ("--" ++ dashed (cmdOption (orDefaultSect section?) opt)) ∈ c1.flags) ∧
      c' =
        (let sec := orDefaultSect section?
         let c2 := ensureSection c1 sec
         let c3 := { c2 with converters := updAssoc c2.converters (sec, opt) conv }
         let c4 := cpSet c3 sec opt (storedOf d)
         if req then { c4 with required := c4.required ++ [(sec, opt)] } else c4) := by
  unfold defineC at h
  cases cm with
  | false =>
    simp only [Bool.false_eq_true, if_false] at h
    refine ⟨c, rfl, rfl, rfl, rfl, by simp, ?_⟩
    exact (Except.ok.injEq _ _ |>.mp h).symm
  | true =>
    simp only [if_true] at h
    by_cases hm :
        ("--" ++ dashed (cmdOption (orDefaultSect section?) opt)) ∈ c.flags
    · rw [if_pos hm] at h
      exact absurd h (by simp)
    · rw [if_neg hm] at h
      refine ⟨{ c with flags :=
          ("--" ++ dashed (cmdOption (orDefaultSect section?) opt)) :: c.flags },
        rfl, rfl, rfl, rfl, by intro _; exact List.mem_cons_self _ _, ?_⟩
      exact (Except.ok.injEq _ _ |>.mp h).symm

theorem cpGet_defineC (c : Config) (opt : String) (section? : Option String)
    (conv : Conv) (d : PyDefault) (cm req : Bool) (c' : Config)
    (h : defineC c opt section? conv d cm req = .ok c') :
    cpGet c' (orDefaultSect section?) opt = .ok (storedOf d) := by
  obtain ⟨c1, _, _, _, _, _, hc'⟩ := defineC_ok_cases c opt section? conv d cm req c' h
  subst hc'
  cases req with
  | false =>
    simp only [Bool.false_eq_true, if_false]
    exact cpGet_cpSet_self _ _ _ _ (fun hne => ensureSection_isSome c1 _ hne)
  | true =>
    simp only [if_true]
    exact (cpGet_eq_of_fields _
      (cpSet { ensureSection c1 (orDefaultSect section?) with
          converters := updAssoc (ensureSection c1 (orDefaultSect section?)).converters
            (orDefaultSect section?, opt) conv } (orDefaultSect section?) opt (storedOf d))
      rfl rfl _ _).trans
      (cpGet_cpSet_self _ _ _ _ (fun hne => ensureSection_isSome c1 _ hne))

theorem conv_defineC (c : Config) (opt : String) (section? : Option String)
    (conv : Conv) (d : PyDefault) (cm req : Bool) (c' : Config)
    (h : defineC c opt section? conv d cm req = .ok c') :
    lk c'.converters (orDefaultSect section?, opt) = some conv := by
  obtain ⟨c1, _, _, _, _, _, hc'⟩ := defineC_ok_cases c opt section? conv d cm req c' h
  subst hc'
  cases req <;>
    simp only [Bool.false_eq_true, if_false, if_true, cpSet_converters] <;>
    exact lk_updAssoc_self _ _ _

theorem flags_defineC (c : Config) (opt : String) (section? : Option String)
    (conv : Conv) (d : PyDefault) (req : Bool) (c' : Config)
    (h : defineC c opt section? conv d true req = .ok c') :
    ("--" ++ dashed (cmdOption (orDefaultSect section?) opt)) ∈ c'.flags := by
  obtain ⟨c1, _, _, _, _, hfl, hc'⟩ := defineC_ok_cases c opt section? conv d true req c' h
  subst hc'
  cases req <;>
    simp only [Bool.false_eq_true, if_false, if_true, cpSet_flags, ensureSection_flags] <;>
    exact hfl rfl

/-! ### Required-check and dump traversal lemmas -/

theorem checkList_ok_iff (c : Config) (l : List (String × String)) :
    checkList c l = .ok () ↔
      ∀ p ∈ l, ∃ w, pyGet c p.2 (some p.1) none = .ok w ∧ truthy w = true := by
  induction l with
  | nil => simp [checkList]
  | cons hd tl ih =>
    obtain ⟨s, o⟩ := hd
    constructor
    · intro h
      unfold checkList at h
      cases hg : pyGet c o (some s) none with
      | error e => simp [hg] at h
      | ok w =>
        by_cases ht : truthy w = true
        · simp only [hg, ht, if_true] at h
          intro p hp
          rcases List.mem_cons.mp hp with hp | hp
          · subst hp; exact ⟨w, hg, ht⟩
          · exact ih.mp h p hp
        · simp [hg, ht] at h
    · intro h
      obtain ⟨w, hg, ht⟩ := h (s, o) (List.mem_cons_self _ _)
      unfold checkList
      simp only [hg, ht, if_true]
      exact ih.mpr (fun p hp => h p (List.mem_cons_of_mem _ hp))

theorem dumpGo_ok_iff (c : Config) (l : List (Option String × String)) :
    (∃ vs, dumpGo c l = .ok vs) ↔ ∀ p ∈ l, ∃ v, pyGet c p.2 p.1 none = .ok v := by
  induction l with
  | nil => simp [dumpGo]
  | cons hd tl ih =>
    obtain ⟨s?, n⟩ := hd
    constructor
    · rintro ⟨vs, hvs⟩
      unfold dumpGo at hvs
      cases hg : pyGet c n s? none with
      | error e =>
        simp only [hg] at hvs
        exact absurd hvs (by simp)
      | ok v =>
        simp only [hg] at hvs
        cases hdd : dumpGo c tl with
        | error e =>
          simp only [hdd] at hvs
          exact absurd hvs (by simp)
        | ok vs2 =>
          intro p hp
          rcases List.mem_cons.mp hp with hp | hp
          · subst hp; exact ⟨v, hg⟩
          · exact ih.mp ⟨vs2, hdd⟩ p hp
    · intro h
      obtain ⟨v, hv⟩ := h (s?, n) (List.mem_cons_self _ _)
      obtain ⟨vs, hvs⟩ := ih.mpr (fun p hp => h p (List.mem_cons_of_mem _ hp))
      exact ⟨v :: vs, by simp [dumpGo, hv, hvs]⟩

/-! ### The state-passing form agrees with the plain form -/

theorem pyRawGetS_eq (c : Config) (opt : String) (section? : Option String)
    (default? : Option Val) :
    pyRawGetS c opt section? default? = (pyRawGet c opt section? default?, c) := by
  unfold pyRawGetS pyRawGet cmdLookupS cpGetS fileTiers
  cases h : cmdLookup c (orDefaultSect section?) opt with
  | some v => simp [h]
  | none =>
    cases h2 : cpGet c (orDefaultSect section?) opt with
    | error e => simp [h, h2]
    | ok fv =>
      cases fv with
      | str s => simp [h, h2]
      | unset => cases default? <;> simp [h, h2]

theorem pyGetS_eq (c : Config) (opt : String) (section? : Option String)
    (default? : Option Val) :
    pyGetS c opt section? default? = (pyGet c opt section? default?, c) := by
  unfold pyGetS pyGet
  rw [pyRawGetS_eq]
  cases hr : pyRawGet c opt section? default? <;> simp [hr]

/-! ### Claim theorems -/

/-- C10: `get` and its helper `_get` are read-only: for every registry state
and arguments the state after the call equals the state before, including
when the result is an `UndefinedOption` or `UnsetOption` failure, and the
state-passing run computes the same result as the plain function. -/
theorem c10_get_preserves_state (c : Config) (opt : String) (section? : Option String)
    (default? : Option Val) :
    (pyGetS c opt section? default?).2 = c ∧
      (pyRawGetS c opt section? default?).2 = c ∧
      (pyGetS c opt section? default?).1 = pyGet c opt section? default? := by
  refine ⟨?_, ?_, ?_⟩ <;> simp [pyGetS_eq, pyRawGetS_eq]

/-- C9 (counterexample): for section `"default"` — which is not the default
section `"DEFAULT"` — the derived flag is `"x"`, not the
`"default_x"` the claim's rule for non-default sections prescribes, because
the source compares `section.upper()` against `DEFAULTSECT`. -/
theorem c9_counterexample :
    cmdOption "default" "x" = "x" ∧ "default" ≠ DEFAULTSECT ∧
      cmdOption "default" "x" ≠ pyLower "default" ++ "_" ++ "x" := by decide

/-- C9 (amended): the flag name equals the option name exactly when the
uppercased section equals the default section name, and otherwise is the
lowercased section, an underscore, and the option name; in particular
`retries` in `db` derives `db_retries` and `host` in the default section
derives `host`. -/
theorem c9_flag_derivation_amended (sect opt : String) :
    (pyUpper sect = DEFAULTSECT → cmdOption sect opt = opt) ∧
      (pyUpper sect ≠ DEFAULTSECT → cmdOption sect opt = pyLower sect ++ "_" ++ opt) ∧
      cmdOption "db" "retries" = "db_retries" ∧ cmdOption DEFAULTSECT "host" = "host" := by
  refine ⟨?_, ?_, by decide, by decide⟩
  · intro h; simp [cmdOption, h]
  · intro h; simp [cmdOption, h]

/-- C9 witness: the amended rule at section `zk`, option `hosts`. -/
theorem c9_witness : cmdOption "zk" "hosts" = "zk_hosts" := by
  have h := (c9_flag_derivation_amended "zk" "hosts").2.1 (by decide)
  exact h.trans (by decide)

/-- C2 (counterexample): with `default_conf="param.conf"` given explicitly
and `--conf cli.conf` on the command line, both files existing, resolution
loads `cli.conf` — the command-line path wins, refuting the claim that the
explicit parameter is preferred. -/
theorem c2_counterexample :
    chooseConfigFile (some [("conf", "cli.conf")]) (some "param.conf") = some "cli.conf" ∧
      cpGet cTwoConf "s" "k" = .ok (.str "cli") ∧
      cpGet cTwoConf "s" "k" ≠ .ok (.str "param") := by decide

/-- C2 (amended): the command-line `--conf` value is preferred whenever it
is present and non-empty; the explicit parameter (named `default_conf` in
the packaged module) is only the fallback for an absent or empty
command-line path. -/
theorem c2_file_choice_amended (parsed : List (String × String))
    (default_conf : Option String) :
    (∀ s, lk parsed "conf" = some s → s ≠ "" →
        chooseConfigFile (some parsed) default_conf = some s) ∧
      (lk parsed "conf" = none →
        chooseConfigFile (some parsed) default_conf = default_conf) ∧
      (lk parsed "conf" = some "" →
        chooseConfigFile (some parsed) default_conf = default_conf) := by
  refine ⟨?_, ?_, ?_⟩
  · intro s h hne; simp [chooseConfigFile, h, hne]
  · intro h; simp [chooseConfigFile, h]
  · intro h; simp [chooseConfigFile, h]

/-- C2 witness: the amended rule at a concrete parsed command line. -/
theorem c2_witness : chooseConfigFile (some [("conf", "cli.conf")]) none = some "cli.conf" :=
  (c2_file_choice_amended [("conf", "cli.conf")] none).1 "cli.conf" (by decide) (by decide)

/-- C1 (counterexample): with `--host=` (the empty string) on the command
line and `host = filehost` in the loaded file, `get` returns the empty
command-line value — the tier hits on any non-`None` value, not only
non-empty ones, so the file value is not returned. -/
theorem c1_counterexample :
    pyGet cHostEmptyCli "host" none none = .ok (.vStr "") ∧
      cmdLookup cHostEmptyCli "DEFAULT" "host" = some "" ∧
      cpGet cHostEmptyCli "DEFAULT" "host" = .ok (.str "filehost") ∧
      pyGet cHostEmptyCli "host" none none ≠ .ok (.vStr "filehost") := by decide

/-- C1 (amended): the command-line tier of `get` hits exactly when the
command line has been parsed and the parsed values contain a value for the
derived flag — present-but-empty values included — and in that case `get`
returns that command-line value after coercion, regardless of any file
value; when the flag value is absent the result is exactly the file tiers'
result. -/
theorem c1_cmdline_tier_amended (c : Config) (opt : String) (section? : Option String)
    (default? : Option Val) :
    (∀ vals v, c.options? = some vals →
        lk vals (cmdOption (orDefaultSect section?) opt) = some v →
        pyGet c opt section? default? =
          applyConv ((lk c.converters (orDefaultSect section?, opt)).getD Conv.cstr)
            (.vStr v)) ∧
      (cmdLookup c (orDefaultSect section?) opt = none →
        pyRawGet c opt section? default? =
          fileTiers c opt (orDefaultSect section?) default?) := by
  constructor
  · intro vals v h1 h2
    simp [pyGet, pyRawGet, cmdLookup, h1, h2]
  · intro h
    simp [pyRawGet, h]

/-- C1 witness: command line `--host=10.0.0.1` wins over the file value
`filehost` for the same option. -/
theorem c1_witness : pyGet cHostCli "host" none none = .ok (.vStr "10.0.0.1") := by
  have h := (c1_cmdline_tier_amended cHostCli "host" none none).1
    [("host", "10.0.0.1")] "10.0.0.1" (by decide) (by decide)
  exact h.trans (by decide)

/-- C3 (counterexample): an option declared with type `int` and no value
anywhere: `get` with caller default `"7"` returns the integer `7`, not the
string `"7"` verbatim — the recorded converter is applied to the
caller-supplied default too. -/
theorem c3_counterexample :
    pyGet cIntPort "port" none (some (.vStr "7")) = .ok (.vInt 7) ∧
      Val.vInt 7 ≠ Val.vStr "7" := by decide

/-- C3 (amended): when the lookup falls through to the caller-supplied
default, the helper `_get` returns the default verbatim, but `get` then
applies the converter recorded for the (section, option) to it, exactly as
it does for command-line and file values. -/
theorem c3_default_tier_amended (c : Config) (opt : String) (section? : Option String)
    (d : Val)
    (h1 : cmdLookup c (orDefaultSect section?) opt = none)
    (h2 : cpGet c (orDefaultSect section?) opt = .ok .unset) :
    pyRawGet c opt section? (some d) = .ok d ∧
      pyGet c opt section? (some d) =
        applyConv ((lk c.converters (orDefaultSect section?, opt)).getD Conv.cstr) d := by
  constructor <;> simp [pyGet, pyRawGet, fileTiers, h1, h2]

/-- C3 witness: the amended behaviour at the concrete int-typed option. -/
theorem c3_witness :
    pyRawGet cIntPort "port" none (some (.vStr "41")) = .ok (.vStr "41") ∧
      pyGet cIntPort "port" none (some (.vStr "41")) = .ok (.vInt 41) := by
  have h := c3_default_tier_amended cIntPort "port" none (.vStr "41") (by decide) (by decide)
  exact ⟨h.1, h.2.trans (by decide)⟩

/-- C5 (counterexample): `host` is declared only in the default section and
`zk` exists because of a different option; the pair `('zk', 'host')` was
never declared and never read from a file, yet `get('host', section='zk')`
returns the default section's value through configparser's fallback instead
of raising `UndefinedOption`. -/
theorem c5_counterexample :
    pyGet cZk "host" (some "zk") none = .ok (.vStr "0.0.0.0") ∧
      pyGet cZk "host" (some "zk") none ≠
        .error (.undefinedOption "Section: zk, option: host") := by decide

/-- C5 (amended): `get` raises `UndefinedOption` exactly when the
command-line tier misses and the config-parser lookup itself fails — that
is, the named section is missing entirely, or the option key is in neither
the section's own store nor the default store; a pair undeclared in the
named section can still resolve through the default-section fallback, and a
parsed value for the derived flag (including the built-in `conf`
destination) also pre-empts the failure. -/
theorem c5_undefined_iff_amended (c : Config) (opt : String) (section? : Option String)
    (default? : Option Val) :
    (∃ m, pyGet c opt section? default? = .error (.undefinedOption m)) ↔
      (cmdLookup c (orDefaultSect section?) opt = none ∧
        ∃ e, cpGet c (orDefaultSect section?) opt = .error e) := by
  constructor
  · rintro ⟨m, hm⟩
    unfold pyGet pyRawGet fileTiers at hm
    cases hcl : cmdLookup c (orDefaultSect section?) opt with
    | some v =>
      simp only [hcl] at hm
      rcases applyConv_cases ((lk c.converters (orDefaultSect section?, opt)).getD Conv.cstr)
          (.vStr v) with ⟨w, hw⟩ | ⟨m2, hw⟩ <;> simp [hw] at hm
    | none =>
      simp only [hcl] at hm
      cases hcp : cpGet c (orDefaultSect section?) opt with
      | error e => exact ⟨rfl, e, rfl⟩
      | ok fv =>
        simp only [hcp] at hm
        cases fv with
        | str s =>
          rcases applyConv_cases ((lk c.converters (orDefaultSect section?, opt)).getD Conv.cstr)
              (.vStr s) with ⟨w, hw⟩ | ⟨m2, hw⟩ <;> simp [hw] at hm
        | unset =>
          cases default? with
          | none => simp at hm
          | some d =>
            rcases applyConv_cases ((lk c.converters (orDefaultSect section?, opt)).getD Conv.cstr)
                d with ⟨w, hw⟩ | ⟨m2, hw⟩ <;> simp [hw] at hm
  · rintro ⟨hcl, e, hcp⟩
    refine ⟨"Section: " ++ orDefaultSect section? ++ ", option: " ++ opt, ?_⟩
    simp [pyGet, pyRawGet, fileTiers, hcl, hcp]

/-- C5 witness: a truly absent pair — section never created — does raise
`UndefinedOption`. -/
theorem c5_witness :
    ∃ m, pyGet confInit "x" (some "nope") none = .error (.undefinedOption m) :=
  (c5_undefined_iff_amended confInit "x" (some "nope") none).mpr ⟨by decide, .noSection, by decide⟩

/-- C4 (counterexample): one declared option with no default and no value:
`dump` propagates the `UnsetOption` failure from its `get` call instead of
rendering a placeholder. -/
theorem c4_counterexample :
    dump cSecret = .error (.unsetOption "Section: DEFAULT, option: secret") := by decide

/-- C4 (amended): `dump` performs a bare `get` per listed option and
catches nothing: it completes without raising exactly on the states where
every listed option's `get` succeeds, and whenever some listed option's
`get` fails — such as an option unset with no default — `dump` raises,
aborting the whole dump; never-raises does not hold in general. -/
theorem c4_dump_amended (c : Config) :
    ((∃ vs, dump c = .ok vs) ↔ ∀ p ∈ dumpPairs c, ∃ v, pyGet c p.2 p.1 none = .ok v) ∧
      (∀ p ∈ dumpPairs c, (∀ v, pyGet c p.2 p.1 none ≠ .ok v) →
        ∃ e, dump c = .error e) := by
  have hiff : (∃ vs, dump c = .ok vs) ↔
      ∀ p ∈ dumpPairs c, ∃ v, pyGet c p.2 p.1 none = .ok v := by
    unfold dump
    exact dumpGo_ok_iff c (dumpPairs c)
  refine ⟨hiff, ?_⟩
  intro p hp hfail
  cases hd : dump c with
  | error e => exact ⟨e, rfl⟩
  | ok vs =>
    obtain ⟨v, hv⟩ := hiff.mp ⟨vs, hd⟩ p hp
    exact absurd hv (hfail v)

/-- C4 witness: with every declared option resolvable, `dump` completes. -/
theorem c4_witness : ∃ vs, dump cHostDefault = .ok vs := by
  apply (c4_dump_amended cHostDefault).1.mpr
  intro p hp
  have hd : dumpPairs cHostDefault = [(none, "host")] := by decide
  rw [hd] at hp
  have hp' : p = (none, "host") := List.mem_singleton.mp hp
  subst hp'
  exact ⟨.vStr "0.0.0.0", by decide⟩

/-- C6: after `define` with the `UNSET` sentinel default (and no
command-line or file value) `get` raises `UnsetOption` naming the section
and option, while after `define` with the empty-string default `get`
returns the coercion of the empty string and in particular never raises
`UnsetOption` — the sentinel is distinguished from the empty string. -/
theorem c6_unset_sentinel_vs_empty_default (c : Config) (opt : String)
    (section? : Option String) (conv : Conv) (r1 r2 : Bool) (c1 c2 : Config)
    (h1 : defineC c opt section? conv .UNSET false r1 = .ok c1)
    (h2 : defineC c opt section? conv (.val (.vStr "")) false r2 = .ok c2)
    (hc1 : cmdLookup c1 (orDefaultSect section?) opt = none)
    (hc2 : cmdLookup c2 (orDefaultSect section?) opt = none) :
    pyGet c1 opt section? none =
        .error (.unsetOption ("Section: " ++ orDefaultSect section? ++ ", option: " ++ opt)) ∧
      pyGet c2 opt section? none = applyConv conv (.vStr "") ∧
      ∀ m, pyGet c2 opt section? none ≠ .error (.unsetOption m) := by
  have g1 := cpGet_defineC c opt section? conv .UNSET false r1 c1 h1
  have g2 := cpGet_defineC c opt section? conv (.val (.vStr "")) false r2 c2 h2
  have k2 := conv_defineC c opt section? conv (.val (.vStr "")) false r2 c2 h2
  have e2 : pyGet c2 opt section? none = applyConv conv (.vStr "") := by
    simp [pyGet, pyRawGet, fileTiers, hc2, g2, k2, storedOf, pyStr]
  refine ⟨?_, e2, ?_⟩
  · simp [pyGet, pyRawGet, fileTiers, hc1, g1, storedOf]
  · intro m hm
    rw [e2] at hm
    rcases applyConv_cases conv (.vStr "") with ⟨w, hw⟩ | ⟨m2, hw⟩ <;> simp [hw] at hm

/-- C6 witness: the concrete `token` option, without and with the
empty-string default. -/
theorem c6_witness :
    pyGet cTokUnset "token" none none =
        .error (.unsetOption "Section: DEFAULT, option: token") ∧
      pyGet cTokEmpty "token" none none = .ok (.vStr "") := by
  have h := c6_unset_sentinel_vs_empty_default confInit "token" none .cstr false false
    cTokUnset cTokEmpty (by decide) (by decide) (by decide) (by decide)
  exact ⟨h.1.trans (by decide), h.2.1.trans (by decide)⟩

/-- C7 (counterexample): declaring `('db', 'retries')` with `cmdline=True`
twice: the second `define` raises the option parser's conflict error for
`--db-retries` rather than overwriting silently. -/
theorem c7_counterexample :
    defineC confInit "retries" (some "db") .cstr .UNSET true false = .ok cDbRetries ∧
      defineC cDbRetries "retries" (some "db") .cstr .UNSET true false =
        .error (.optionConflict "--db-retries") := by decide

/-- C7 (amended): after a successful `cmdline=True` declaration,
redeclaring the same (section, name) with `cmdline=True` raises the
duplicate-flag conflict error (and mutates nothing), while redeclaring with
`cmdline=False` succeeds and overwrites the recorded converter and stored
default — last write wins only for the non-flag state. -/
theorem c7_redeclare_amended (c : Config) (opt : String) (section? : Option String)
    (conv1 conv2 : Conv) (d1 d2 : PyDefault) (r1 r2 : Bool) (c1 : Config)
    (h1 : defineC c opt section? conv1 d1 true r1 = .ok c1) :
    defineC c1 opt section? conv2 d2 true r2 =
        .error (.optionConflict ("--" ++ dashed (cmdOption (orDefaultSect section?) opt))) ∧
      ∀ c2, defineC c1 opt section? conv2 d2 false r2 = .ok c2 →
        lk c2.converters (orDefaultSect section?, opt) = some conv2 ∧
        cpGet c2 (orDefaultSect section?) opt = .ok (storedOf d2) := by
  constructor
  · have hm := flags_defineC c opt section? conv1 d1 r1 c1 h1
    simp [defineC, hm]
  · intro c2 h2
    exact ⟨conv_defineC _ _ _ _ _ _ _ _ h2, cpGet_defineC _ _ _ _ _ _ _ _ h2⟩

/-- C7 witness: the amended behaviour at the concrete `db`/`retries`
declaration, with a different converter and default in the redeclaration. -/
theorem c7_witness :
    defineC cDbRetries "retries" (some "db") .cint (.val (.vStr "3")) true true =
      .error (.optionConflict "--db-retries") := by
  have h := (c7_redeclare_amended confInit "retries" (some "db") .cstr .cint .UNSET
    (.val (.vStr "3")) false true cDbRetries (by decide)).1
  exact h.trans (by decide)

/-- C8 (counterexample): `port` declared `required=True` with type `int`
and supplied on the command line as `--port 0`: resolution with
`check_required=True` still fails the assertion, because the supplied value
coerces to the falsy `0` — supplying a value does not suffice. -/
theorem c8_counterexample :
    callConfig cReqPort [] none true [("port", "0")] =
        .error (.assertionError "[DEFAULT]port is not config") ∧
      lk [("port", "0")] "port" = some "0" := by decide

/-- C8 (amended): the required check fails loudly — with the assertion
message naming the section and option when the resolved value is falsy, and
with the propagated `get` failure when it cannot resolve — whenever some
required option does not resolve to a truthy value; it succeeds exactly
when every required option's `get` succeeds with a value whose coercion is
truthy, so a supplied file or command-line value lets the same call succeed
only if its coercion is truthy. -/
theorem c8_check_required_amended (c : Config) (sec opt : String) (v : Val) :
    (c.required = [(sec, opt)] → pyGet c opt (some sec) none = .ok v →
        truthy v = false →
        checkRequired c =
          .error (.assertionError ("[" ++ sec ++ "]" ++ opt ++ " is not config"))) ∧
      ((sec, opt) ∈ c.required →
        ¬(∃ w, pyGet c opt (some sec) none = .ok w ∧ truthy w = true) →
        ∃ e, checkRequired c = .error e) ∧
      ((∀ p ∈ c.required, ∃ w, pyGet c p.2 (some p.1) none = .ok w ∧ truthy w = true) →
        checkRequired c = .ok ()) := by
  refine ⟨?_, ?_, ?_⟩
  · intro hr hg ht
    unfold checkRequired
    rw [hr]
    unfold checkList
    simp [hg, ht]
  · intro hmem hno
    cases hcr : checkRequired c with
    | error e => exact ⟨e, rfl⟩
    | ok u =>
      cases u
      unfold checkRequired at hcr
      exact absurd ((checkList_ok_iff c c.required).mp hcr (sec, opt) hmem) hno
  · intro h
    unfold checkRequired
    exact (checkList_ok_iff c c.required).mpr h

/-- C8 witness: the same required option supplied as `--port 8080` (truthy
after int coercion) passes the required check. -/
theorem c8_witness : checkRequired cReqPortSet = .ok () := by
  apply (c8_check_required_amended cReqPortSet "DEFAULT" "port" (.vInt 0)).2.2
  intro p hp
  have hr : cReqPortSet.required = [("DEFAULT", "port")] := by decide
  rw [hr] at hp
  have hp' : p = ("DEFAULT", "port") := List.mem_singleton.mp hp
  subst hp'
  exact ⟨.vInt 8080, by decide, by decide⟩
